import Mathlib

/-!
Shallow embedding of `floating_clock.py` (DT_Clock): the widget state and the
operations the verified claims are about.  Pure functions become Lean
functions; the mutating methods of `FloatingAnalogClock` become explicit
state-passing functions on `WState`.  Monotonic timestamps
(`time.perf_counter()`) are modelled as integer milliseconds; persistence
writes (`save_state`) are modelled as a write counter.
-/

set_option maxHeartbeats 1000000
set_option maxRecDepth 100000

namespace DTClock

/-- Integer 2-D point, modelling Qt's `QPoint` (pointer positions and window
positions). -/
structure Point where
  x : Int
  y : Int
deriving DecidableEq, Repr

instance : Sub Point := ⟨fun a b => ⟨a.x - b.x, a.y - b.y⟩⟩

/-- Qt `QPoint.manhattanLength()`: the sum of the absolute values of both
coordinates. -/
def Point.manhattanLength (p : Point) : Int :=
  (p.x.natAbs : Int) + (p.y.natAbs : Int)

/-- Integer rectangle, modelling Qt's `QRect` (screen geometries and the
window frame). -/
structure Rect where
  x : Int
  y : Int
  w : Int
  h : Int
deriving DecidableEq, Repr

/-- Qt `QRect.contains(point)`: inside or on the edge; Qt stores the corners
as `x2 = x + w - 1`, `y2 = y + h - 1`. -/
def Rect.contains (r : Rect) (p : Point) : Bool :=
  decide (r.x ≤ p.x) && decide (p.x ≤ r.x + r.w - 1) &&
    decide (r.y ≤ p.y) && decide (p.y ≤ r.y + r.h - 1)

/-- Qt `QRect.center()`: `((x1 + x2) / 2, (y1 + y2) / 2)` with C++ integer
division (truncation toward zero). -/
def Rect.center (r : Rect) : Point :=
  ⟨Int.tdiv (2 * r.x + r.w - 1) 2, Int.tdiv (2 * r.y + r.h - 1) 2⟩

def MODE_CLOCK : String := "clock"

def MODE_STOPWATCH : String := "stopwatch"

def DEFAULT_MODE : String := MODE_CLOCK

def LAYER_TOP : String := "top"

def LAYER_NORMAL : String := "normal"

def LAYER_BOTTOM : String := "bottom"

def DEFAULT_LAYER : String := LAYER_TOP

def MIN_CLOCK_SIZE : Int := 120

def MAX_CLOCK_SIZE : Int := 640

def DEFAULT_CLOCK_SIZE : Int := 220

/-- Keys of `THEME_PRESETS` (the color tables themselves are pure data and not
needed by any claim). -/
def THEME_KEYS : List String := ["midnight", "daylight", "high_contrast", "ocean"]

def DEFAULT_THEME : String := "midnight"

def DEFAULT_READOUT_FONT : String := "Monospace"

/-- `_valid_mode`: a known mode string passes through, anything else falls
back to the default mode.  `none` models Python `None` (and any non-string
value read from JSON). -/
def _valid_mode (mode : Option String) : String :=
  match mode with
  | some m => if m = MODE_CLOCK ∨ m = MODE_STOPWATCH then m else DEFAULT_MODE
  | Option.none => DEFAULT_MODE

/-- `_valid_layer`: a known layer string passes through, anything else falls
back to the default layer. -/
def _valid_layer (layer : Option String) : String :=
  match layer with
  | some l => if l = LAYER_TOP ∨ l = LAYER_NORMAL ∨ l = LAYER_BOTTOM then l else DEFAULT_LAYER
  | Option.none => DEFAULT_LAYER

/-- `_valid_theme`: a key of `THEME_PRESETS` passes through, anything else
falls back to the default theme. -/
def _valid_theme (theme_name : Option String) : String :=
  match theme_name with
  | some t => if t ∈ THEME_KEYS then t else DEFAULT_THEME
  | Option.none => DEFAULT_THEME

/-- Raw size value as `_valid_size` receives it: Python `int | str | None`
(any other JSON value raises `TypeError` like `None` does and is modelled by
`none`). -/
inductive SizeInput where
  | none : SizeInput
  | int (n : Int) : SizeInput
  | str (s : String) : SizeInput
deriving DecidableEq, Repr

/-- Decimal digit run to a natural number; fails on empty input or on any
non-digit character.  This is the digit part of Python `int(str)`. -/
def digitsToNat? (cs : List Char) : Option Nat :=
  match cs with
  | [] => Option.none
  | _ =>
    cs.foldl
      (fun acc c =>
        match acc with
        | some n => if c.isDigit then some (10 * n + (c.toNat - 48)) else Option.none
        | Option.none => Option.none)
      (some 0)

/-- Python `str.strip()`: drop leading and trailing whitespace (ASCII
whitespace only; Python also strips some further Unicode whitespace). -/
def pyStrip (s : String) : String :=
  String.mk (((s.data.dropWhile Char.isWhitespace).reverse.dropWhile Char.isWhitespace).reverse)

/-- Modelled from Python `int(str)`: surrounding whitespace is stripped, then
an optional sign followed by decimal digits (digit-group underscores and
non-ASCII digits are not modelled). -/
def pyStrToInt (s : String) : Option Int :=
  match (pyStrip s).data with
  | '-' :: rest => (digitsToNat? rest).map (fun n => -(n : Int))
  | '+' :: rest => (digitsToNat? rest).map (fun n => (n : Int))
  | cs => (digitsToNat? cs).map (fun n => (n : Int))

/-- Python `int(value)` over the inputs `_valid_size` receives;
`TypeError` / `ValueError` becomes `none`. -/
def pyParseInt : SizeInput → Option Int
  | SizeInput.none => Option.none
  | SizeInput.int n => some n
  | SizeInput.str s => pyStrToInt s

/-- `_valid_size`: parse the value, defaulting to `DEFAULT_CLOCK_SIZE` on
failure, then clamp into `[MIN_CLOCK_SIZE, MAX_CLOCK_SIZE]`. -/
def _valid_size (size : SizeInput) : Int :=
  let parsed := (pyParseInt size).getD DEFAULT_CLOCK_SIZE
  max MIN_CLOCK_SIZE (min MAX_CLOCK_SIZE parsed)

/-- `_normalize_readout_font`: non-strings fall back to the default family;
otherwise strip, and an empty result falls back to the default family. -/
def _normalize_readout_font (font_name : Option String) : String :=
  match font_name with
  | some s =>
    let normalized := pyStrip s
    if normalized = "" then DEFAULT_READOUT_FONT else normalized
  | Option.none => DEFAULT_READOUT_FONT

/-- Ambient display environment: `QApplication.screens()` (whose head is the
primary screen), `QCursor.pos()`, and the screen reported by
`self.windowHandle()` when a native window exists (`none` before `show()`). -/
structure Env where
  screens : List Rect
  cursor : Point
  handleScreen : Option Rect
deriving DecidableEq, Repr

/-- Mutable state of `FloatingAnalogClock` needed by the claims.  `saves`
counts `save_state` persistence writes; timestamps are integer milliseconds of
the monotonic `time.perf_counter` clock. -/
structure WState where
  clock_size : Int
  readout_height : Int
  layer : String
  show_seconds : Bool
  mode : String
  color_theme : String
  readout_font_family : String
  stopwatch_running : Bool
  stopwatch_elapsed_ms : Int
  stopwatch_start_time : Int
  drag_offset : Option Point
  press_global_pos : Option Point
  drag_started : Bool
  click_threshold_px : Int
  pos : Point
  saves : Nat
deriving DecidableEq, Repr

/-- Field initialisation of `FloatingAnalogClock.__init__` (GUI calls and the
float opacity are outside the integer model); `pos0` is the initial window
position supplied by the window system. -/
def initWidget (size : SizeInput) (show_seconds : Bool)
    (layer mode color_theme readout_font : String) (pos0 : Point) : WState :=
  let cs := _valid_size size
  { clock_size := cs
    readout_height := max 52 (Int.fdiv cs 4)
    layer := _valid_layer (some layer)
    show_seconds := show_seconds
    mode := _valid_mode (some mode)
    color_theme := _valid_theme (some color_theme)
    readout_font_family := _normalize_readout_font (some readout_font)
    stopwatch_running := false
    stopwatch_elapsed_ms := 0
    stopwatch_start_time := 0
    drag_offset := Option.none
    press_global_pos := Option.none
    drag_started := false
    click_threshold_px := 6
    pos := pos0
    saves := 0 }

/-- Window width, from `_apply_window_size` / `setFixedSize`. -/
def widgetWidth (st : WState) : Int := st.clock_size

/-- Window height, from `_apply_window_size`: the readout band is added only
in stopwatch mode. -/
def widgetHeight (st : WState) : Int :=
  st.clock_size + (if st.mode = MODE_STOPWATCH then st.readout_height else 0)

/-- `frameGeometry()` of the frameless window: frame and widget geometry
coincide. -/
def frameGeom (st : WState) : Rect :=
  ⟨st.pos.x, st.pos.y, widgetWidth st, widgetHeight st⟩

/-- `save_state`: one persistence write of the record (modelled as a write
counter; an `OSError` is swallowed and changes nothing else). -/
def save_state (st : WState) : WState := { st with saves := st.saves + 1 }

/-- `_is_on_any_screen`: whether the frame's center is inside some known
screen. -/
def _is_on_any_screen (env : Env) (st : WState) : Bool :=
  env.screens.any (fun g => g.contains (Rect.center (frameGeom st)))

/-- `_current_screen`: the window's own screen, else the screen under the
frame center, else the screen under the cursor, else the primary screen. -/
def _current_screen (env : Env) (st : WState) : Option Rect :=
  match env.handleScreen with
  | some g => some g
  | Option.none =>
    match env.screens.find? (fun g => g.contains (Rect.center (frameGeom st))) with
    | some g => some g
    | Option.none =>
      match env.screens.find? (fun g => g.contains env.cursor) with
      | some g => some g
      | Option.none => env.screens.head?

/-- `center_on_screen`: center the window on the current screen and persist;
when no screen is found nothing changes. -/
def center_on_screen (env : Env) (st : WState) : WState :=
  match _current_screen env st with
  | Option.none => st
  | some g =>
    save_state { st with
      pos := ⟨g.x + Int.fdiv (g.w - widgetWidth st) 2, g.y + Int.fdiv (g.h - widgetHeight st) 2⟩ }

/-- `restore_position`: CLI coordinates win; otherwise the saved position is
used (`saved` is `some` exactly when both persisted coordinates parse as
ints; a parse failure re-centers), re-centering when the frame center lies on
no screen. -/
def restore_position (env : Env) (st : WState) (cliX cliY : Option Int)
    (saved : Option Point) : WState :=
  match cliX, cliY with
  | some x, some y => { st with pos := ⟨x, y⟩ }
  | _, _ =>
    match saved with
    | Option.none => center_on_screen env st
    | some p =>
      let st1 := { st with pos := p }
      if _is_on_any_screen env st1 = true then st1 else center_on_screen env st1

/-- `_current_stopwatch_ms`: the elapsed reading at monotonic instant `now`
(in ms); the source clamps the running delta with `max(0, ...)`. -/
def _current_stopwatch_ms (st : WState) (now : Int) : Int :=
  if st.stopwatch_running = true then
    st.stopwatch_elapsed_ms + max 0 (now - st.stopwatch_start_time)
  else st.stopwatch_elapsed_ms

/-- Reading the elapsed time is a pure attribute read: it yields the value and
the untouched state. -/
def stopwatch_read (st : WState) (now : Int) : Int × WState :=
  (_current_stopwatch_ms st now, st)

/-- `toggle_stopwatch_running` (stopwatch mode only): stopping folds the
running delta into the accumulator, starting rebases the start instant. -/
def toggle_stopwatch_running (st : WState) (now : Int) : WState :=
  if st.mode ≠ MODE_STOPWATCH then st
  else if st.stopwatch_running = true then
    { st with stopwatch_elapsed_ms := _current_stopwatch_ms st now, stopwatch_running := false }
  else
    { st with stopwatch_start_time := now, stopwatch_running := true }

/-- `reset_stopwatch`: zero the accumulator; a running stopwatch keeps
running with its start instant rebased to `now`. -/
def reset_stopwatch (st : WState) (now : Int) : WState :=
  { st with
    stopwatch_elapsed_ms := 0
    stopwatch_start_time := if st.stopwatch_running = true then now else st.stopwatch_start_time }

/-- `set_mode`: no-op when the normalized mode is unchanged; switching away
from a running stopwatch first folds the elapsed time and stops it. -/
def set_mode (st : WState) (mode : String) (now : Int) (persist : Bool) : WState :=
  let normalized_mode := _valid_mode (some mode)
  if normalized_mode = st.mode then st
  else
    let st1 :=
      if normalized_mode ≠ MODE_STOPWATCH ∧ st.stopwatch_running = true then
        { st with
          stopwatch_elapsed_ms := _current_stopwatch_ms st now
          stopwatch_running := false }
      else st
    let st2 := { st1 with mode := normalized_mode }
    if persist = true then save_state st2 else st2

/-- `set_layer`: no-op on an unchanged normalized layer unless forced;
otherwise the window is re-created on the new layer with identical
geometry. -/
def set_layer (st : WState) (layer : String) (persist force : Bool) : WState :=
  let normalized_layer := _valid_layer (some layer)
  if normalized_layer = st.layer ∧ force = false then st
  else
    let st1 := { st with layer := normalized_layer }
    if persist = true then save_state st1 else st1

/-- Resizing core of `set_clock_size`: apply the new size and readout height,
then move so that the old frame center is preserved. -/
def resize_keeping_center (st : WState) (ns : Int) : WState :=
  let old_center := Rect.center (frameGeom st)
  let st1 := { st with clock_size := ns, readout_height := max 52 (Int.fdiv ns 4) }
  { st1 with
    pos := ⟨old_center.x - Int.fdiv (widgetWidth st1) 2,
            old_center.y - Int.fdiv (widgetHeight st1) 2⟩ }

/-- `set_clock_size`: no-op on an unchanged normalized size; otherwise resize
around the old center, re-center when that left the frame off every screen,
and persist. -/
def set_clock_size (env : Env) (st : WState) (size : SizeInput) (persist : Bool) : WState :=
  let normalized_size := _valid_size size
  if normalized_size = st.clock_size then st
  else
    let st1 := resize_keeping_center st normalized_size
    let st2 := if _is_on_any_screen env st1 = true then st1 else center_on_screen env st1
    if persist = true then save_state st2 else st2

/-- `set_color_theme`: no-op on an unchanged normalized theme. -/
def set_color_theme (st : WState) (theme_name : String) (persist : Bool) : WState :=
  let normalized_theme := _valid_theme (some theme_name)
  if normalized_theme = st.color_theme then st
  else
    let st1 := { st with color_theme := normalized_theme }
    if persist = true then save_state st1 else st1

/-- `set_readout_font`: no-op on an unchanged normalized family. -/
def set_readout_font (st : WState) (font_family : String) (persist : Bool) : WState :=
  let normalized := _normalize_readout_font (some font_family)
  if normalized = st.readout_font_family then st
  else
    let st1 := { st with readout_font_family := normalized }
    if persist = true then save_state st1 else st1

/-- `mousePressEvent`: on the primary button, record the drag anchor and the
press point; in clock mode a granted native system move hands the drag to the
compositor (`nativeMoveAccepted` models `startSystemMove()` succeeding). -/
def mousePressEvent (st : WState) (isLeft : Bool) (p : Point)
    (nativeMoveAccepted : Bool) : WState :=
  if isLeft = true then
    let st1 := { st with
      drag_offset := some (p - st.pos)
      press_global_pos := some p
      drag_started := false }
    if st1.mode = MODE_CLOCK ∧ nativeMoveAccepted = true then
      { st1 with drag_started := true, drag_offset := Option.none }
    else st1
  else st

/-- `mouseMoveEvent`: while the press is live, arm the drag once the
Manhattan distance from the press point exceeds the click threshold, then
track the pointer. -/
def mouseMoveEvent (st : WState) (leftHeld : Bool) (q : Point) : WState :=
  match st.drag_offset, leftHeld with
  | Option.none, _ => st
  | some _, false => st
  | some off, true =>
    let st1 :=
      if st.drag_started = false then
        match st.press_global_pos with
        | some pp =>
          if (q - pp).manhattanLength > st.click_threshold_px then
            { st with drag_started := true }
          else st
        | Option.none => st
      else st
    if st1.drag_started = true then { st1 with pos := q - off } else st1

/-- `mouseReleaseEvent` (primary button): classify click vs drag, toggle the
stopwatch on a click in stopwatch mode, persist after a drag, and always
clear the interaction session. -/
def mouseReleaseEvent (st : WState) (isLeft : Bool) (r : Point) (now : Int) : WState :=
  if isLeft = true then
    let was_click :=
      match st.press_global_pos with
      | some pp => decide ((r - pp).manhattanLength ≤ st.click_threshold_px) && !st.drag_started
      | Option.none => false
    let st1 :=
      if st.mode = MODE_STOPWATCH ∧ was_click = true then toggle_stopwatch_running st now else st
    let st2 := if st1.drag_started = true then save_state st1 else st1
    { st2 with drag_offset := Option.none, press_global_pos := Option.none, drag_started := false }
  else st

/-- Fold of a sequence of move events (left button held) over the state. -/
def processMoves (st : WState) (qs : List Point) : WState :=
  qs.foldl (fun s q => mouseMoveEvent s true q) st

/-- Python `format(n, "0Nd")` for the nonnegative readout components:
left-pad the decimal representation with zeros to at least `width`. -/
def padNum (width : Nat) (n : Nat) : String :=
  let s := toString n
  if s.length < width then String.mk (List.replicate (width - s.length) '0') ++ s else s

/-- `_format_stopwatch_elapsed`: truncating decomposition of a nonnegative
millisecond count, rendered `HH:MM:SS.mmm`, with the hour field dropped when
zero. -/
def _format_stopwatch_elapsed (elapsed_ms : Nat) : String :=
  let hours := elapsed_ms / 3600000
  let minutes := (elapsed_ms / 60000) % 60
  let seconds := (elapsed_ms / 1000) % 60
  let millis := elapsed_ms % 1000
  if hours > 0 then
    padNum 2 hours ++ ":" ++ padNum 2 minutes ++ ":" ++ padNum 2 seconds ++ "." ++ padNum 3 millis
  else
    padNum 2 minutes ++ ":" ++ padNum 2 seconds ++ "." ++ padNum 3 millis

/-- Raw persisted record as read back from JSON: absent keys, and keys holding
values of an unusable JSON type, behave as `none`. -/
structure RawRecord where
  size : SizeInput
  mode : Option String
  layer : Option String
  theme : Option String
  readout_font : Option String
deriving DecidableEq, Repr

/-- Record produced by `{}`: every field lookup misses. -/
def emptyRecord : RawRecord :=
  ⟨SizeInput.none, Option.none, Option.none, Option.none, Option.none⟩

/-- Outcome of reading and JSON-parsing the state file. -/
inductive LoadOutcome where
  | failure : LoadOutcome
  | nonDict : LoadOutcome
  | dict (r : RawRecord) : LoadOutcome
deriving DecidableEq, Repr

/-- `load_saved_state`: any `OSError` / `ValueError` while reading or parsing,
or a top-level JSON value that is not an object, yields the empty record. -/
def load_saved_state : LoadOutcome → RawRecord
  | LoadOutcome.failure => emptyRecord
  | LoadOutcome.nonDict => emptyRecord
  | LoadOutcome.dict r => r

/-- Python truthiness fallback `a if a else b` used by `main` for the string
CLI overrides: `None` and the empty string fall through to the saved value. -/
def pyOrStr (a : Option String) (b : Option String) : Option String :=
  match a with
  | some s => if s = "" then b else some s
  | Option.none => b

/-- Validated launch configuration computed field-by-field in `main`. -/
structure LaunchConfig where
  size : Int
  mode : String
  layer : String
  theme : String
  readout_font : String
deriving DecidableEq, Repr

/-- Lines of `main` computing `launch_size` through `launch_font`: each field
takes the CLI value when present, else the saved value, and is normalized by
the very validator the mutators use (`args.size` is compared against `None`,
the string arguments by truthiness). -/
def launchConfig (argSize : Option Int) (argMode argLayer argTheme argFont : Option String)
    (saved : RawRecord) : LaunchConfig :=
  { size := _valid_size (match argSize with | some n => SizeInput.int n | Option.none => saved.size)
    mode := _valid_mode (pyOrStr argMode saved.mode)
    layer := _valid_layer (pyOrStr argLayer saved.layer)
    theme := _valid_theme (pyOrStr argTheme saved.theme)
    readout_font := _normalize_readout_font (pyOrStr argFont saved.readout_font) }

/-- Concrete widget built with the defaults the repository ships
(`size 220`, clock mode, top layer, midnight theme, monospace readout). -/
def st0 : WState :=
  initWidget (SizeInput.int 220) true "top" "clock" "midnight" "Monospace" ⟨0, 0⟩

/-- Concrete running-stopwatch state used by the witnesses. -/
def stRun : WState :=
  { st0 with
    mode := MODE_STOPWATCH
    stopwatch_running := true
    stopwatch_elapsed_ms := 5
    stopwatch_start_time := 10 }

/-- Single 2000 by 2000 screen environment used by the witnesses. -/
def envW : Env := ⟨[⟨0, 0, 2000, 2000⟩], ⟨0, 0⟩, Option.none⟩

/-- Two-screen environment with the cursor on the secondary screen. -/
def env9 : Env := ⟨[⟨0, 0, 1000, 1000⟩, ⟨1000, 0, 1000, 1000⟩], ⟨1500, 500⟩, Option.none⟩

/-! Helper lemmas shared by several claims. -/

lemma valid_size_bounds (s : SizeInput) :
    MIN_CLOCK_SIZE ≤ _valid_size s ∧ _valid_size s ≤ MAX_CLOCK_SIZE := by
  simp only [_valid_size, MIN_CLOCK_SIZE, MAX_CLOCK_SIZE]
  constructor <;> omega

lemma center_on_screen_clock_size (env : Env) (st : WState) :
    (center_on_screen env st).clock_size = st.clock_size := by
  unfold center_on_screen
  cases h : _current_screen env st <;> simp [h, save_state]

lemma set_clock_size_clock_size (env : Env) (st : WState) (s : SizeInput) (p : Bool) :
    (set_clock_size env st s p).clock_size
      = if _valid_size s = st.clock_size then st.clock_size else _valid_size s := by
  by_cases h : _valid_size s = st.clock_size
  · simp [set_clock_size, h]
  · unfold set_clock_size
    simp only [if_neg h]
    split_ifs <;>
      simp [save_state, resize_keeping_center, center_on_screen_clock_size]

lemma padNum_two_len : ∀ n, n < 60 → (padNum 2 n).length = 2 := by decide

lemma padNum_three_len : ∀ n, n < 1000 → (padNum 3 n).length = 3 := by decide

lemma padNum_min_len (w n : Nat) : w ≤ (padNum w n).length := by
  simp only [padNum]
  split_ifs with h
  · simp only [String.length_append, String.length_mk, List.length_replicate]
    omega
  · omega

lemma current_ms_running (st : WState) (now : Int) (h : st.stopwatch_running = true) :
    _current_stopwatch_ms st now
      = st.stopwatch_elapsed_ms + max 0 (now - st.stopwatch_start_time) := by
  simp [_current_stopwatch_ms, h]

lemma current_ms_stopped (st : WState) (now : Int) (h : st.stopwatch_running = false) :
    _current_stopwatch_ms st now = st.stopwatch_elapsed_ms := by
  simp [_current_stopwatch_ms, h]

lemma mouseMove_preserves (st : WState) (b : Bool) (q : Point) :
    (mouseMoveEvent st b q).press_global_pos = st.press_global_pos
    ∧ (mouseMoveEvent st b q).drag_offset = st.drag_offset
    ∧ (mouseMoveEvent st b q).mode = st.mode
    ∧ (mouseMoveEvent st b q).stopwatch_running = st.stopwatch_running
    ∧ (mouseMoveEvent st b q).stopwatch_elapsed_ms = st.stopwatch_elapsed_ms
    ∧ (mouseMoveEvent st b q).stopwatch_start_time = st.stopwatch_start_time
    ∧ (mouseMoveEvent st b q).click_threshold_px = st.click_threshold_px
    ∧ (mouseMoveEvent st b q).saves = st.saves := by
  unfold mouseMoveEvent
  rcases hoff : st.drag_offset with _ | off
  · simp [hoff]
  · cases b
    · simp [hoff]
    · rcases hp : st.press_global_pos with _ | pp <;>
        rcases hds : st.drag_started with _ | _ <;>
        dsimp only <;> (try split_ifs) <;> simp_all

lemma processMoves_nil (st : WState) : processMoves st [] = st := rfl

lemma processMoves_cons (st : WState) (q : Point) (qs : List Point) :
    processMoves st (q :: qs) = processMoves (mouseMoveEvent st true q) qs := rfl

lemma processMoves_preserves (qs : List Point) : ∀ st : WState,
    (processMoves st qs).press_global_pos = st.press_global_pos
    ∧ (processMoves st qs).drag_offset = st.drag_offset
    ∧ (processMoves st qs).mode = st.mode
    ∧ (processMoves st qs).stopwatch_running = st.stopwatch_running
    ∧ (processMoves st qs).stopwatch_elapsed_ms = st.stopwatch_elapsed_ms
    ∧ (processMoves st qs).stopwatch_start_time = st.stopwatch_start_time
    ∧ (processMoves st qs).click_threshold_px = st.click_threshold_px
    ∧ (processMoves st qs).saves = st.saves := by
  induction qs with
  | nil => intro st; exact ⟨rfl, rfl, rfl, rfl, rfl, rfl, rfl, rfl⟩
  | cons q qs ih =>
    intro st
    obtain ⟨a1, a2, a3, a4, a5, a6, a7, a8⟩ := mouseMove_preserves st true q
    obtain ⟨b1, b2, b3, b4, b5, b6, b7, b8⟩ := ih (mouseMoveEvent st true q)
    rw [processMoves_cons]
    exact ⟨b1.trans a1, b2.trans a2, b3.trans a3, b4.trans a4, b5.trans a5,
      b6.trans a6, b7.trans a7, b8.trans a8⟩

lemma processMoves_id (p : Point) (qs : List Point) : ∀ (st : WState) (off : Point),
    st.drag_started = false → st.press_global_pos = some p → st.drag_offset = some off →
    (∀ q ∈ qs, (q - p).manhattanLength ≤ st.click_threshold_px) →
    processMoves st qs = st := by
  induction qs with
  | nil => intro st off _ _ _ _; rfl
  | cons q qs ih =>
    intro st off hds hp hoff hall
    have hq := hall q (by simp)
    have hlt : ¬((q - p).manhattanLength > st.click_threshold_px) := not_lt.mpr hq
    have hstep : mouseMoveEvent st true q = st := by
      unfold mouseMoveEvent
      simp [hoff, hp, hds, hlt]
    rw [processMoves_cons, hstep]
    exact ih st off hds hp hoff (fun q2 hq2 => hall q2 (by simp [hq2]))

lemma toggle_flips (st : WState) (now : Int) (h : st.mode = MODE_STOPWATCH) :
    (toggle_stopwatch_running st now).stopwatch_running = !st.stopwatch_running
    ∧ (toggle_stopwatch_running st now).drag_started = st.drag_started
    ∧ (toggle_stopwatch_running st now).saves = st.saves
    ∧ (toggle_stopwatch_running st now).pos = st.pos := by
  unfold toggle_stopwatch_running
  rw [if_neg (fun hc => hc h)]
  rcases Bool.eq_false_or_eq_true st.stopwatch_running with hr | hr <;> simp [hr]

lemma press_no_native (st : WState) (p : Point) :
    mousePressEvent st true p false =
      { st with drag_offset := some (p - st.pos), press_global_pos := some p,
                drag_started := false } := by
  unfold mousePressEvent
  rw [if_pos rfl, if_neg (fun hc => Bool.noConfusion hc.2)]

lemma release_click_stopwatch (s : WState) (r p : Point) (now : Int)
    (hp : s.press_global_pos = some p) (hds : s.drag_started = false)
    (hcl : (r - p).manhattanLength ≤ s.click_threshold_px)
    (hm : s.mode = MODE_STOPWATCH) :
    (mouseReleaseEvent s true r now).stopwatch_running = !s.stopwatch_running := by
  unfold mouseReleaseEvent
  rw [if_pos rfl]
  simp only [hp]
  have hwc : (decide ((r - p).manhattanLength ≤ s.click_threshold_px) && !s.drag_started)
      = true := by
    rw [hds, decide_eq_true hcl]
    rfl
  rw [hwc, if_pos (show s.mode = MODE_STOPWATCH ∧ (true : Bool) = true from ⟨hm, rfl⟩)]
  have hds2 := (toggle_flips s now hm).2.1
  rw [if_neg (show ¬(toggle_stopwatch_running s now).drag_started = true from
    fun hc => by rw [hds2, hds] at hc; cases hc)]
  exact (toggle_flips s now hm).1

lemma release_click_clock (s : WState) (r : Point) (now : Int) (p : Point)
    (hp : s.press_global_pos = some p) (hds : s.drag_started = false)
    (hm : s.mode = MODE_CLOCK) :
    mouseReleaseEvent s true r now
      = { s with drag_offset := Option.none, press_global_pos := Option.none,
                 drag_started := false } := by
  unfold mouseReleaseEvent
  rw [if_pos rfl]
  simp only [hp]
  rw [if_neg (show ¬(s.mode = MODE_STOPWATCH
        ∧ (decide ((r - p).manhattanLength ≤ s.click_threshold_px) && !s.drag_started) = true)
      from fun hc => by
        have h1 := hc.1
        rw [hm] at h1
        exact absurd h1 (by decide)),
    if_neg (show ¬s.drag_started = true from fun hc => by rw [hds] at hc; cases hc)]

lemma release_far_no_toggle (s : WState) (r p : Point) (now : Int)
    (hp : s.press_global_pos = some p)
    (hfar : s.click_threshold_px < (r - p).manhattanLength) :
    (mouseReleaseEvent s true r now).stopwatch_running = s.stopwatch_running := by
  unfold mouseReleaseEvent
  rw [if_pos rfl]
  simp only [hp]
  have hwc : (decide ((r - p).manhattanLength ≤ s.click_threshold_px) && !s.drag_started)
      = false := by
    rw [decide_eq_false (not_le.mpr hfar)]
    rfl
  rw [hwc, if_neg (show ¬(s.mode = MODE_STOPWATCH ∧ (false : Bool) = true) from
    fun hc => Bool.noConfusion hc.2)]
  split_ifs with h
  · rfl
  · rfl

lemma set_mode_mode (st : WState) (m : String) (now : Int) (p : Bool) :
    (set_mode st m now p).mode = _valid_mode (some m) := by
  unfold set_mode
  by_cases h : _valid_mode (some m) = st.mode
  · rw [if_pos h]; exact h.symm
  · rw [if_neg h]
    split_ifs <;> rfl

lemma set_mode_noop (st : WState) (m : String) (now : Int) (p : Bool)
    (h : _valid_mode (some m) = st.mode) : set_mode st m now p = st := by
  unfold set_mode
  rw [if_pos h]

lemma set_mode_saves (st : WState) (m : String) (now : Int) :
    (set_mode st m now true).saves
      = if _valid_mode (some m) = st.mode then st.saves else st.saves + 1 := by
  by_cases h : _valid_mode (some m) = st.mode
  · rw [set_mode_noop st m now true h, if_pos h]
  · rw [if_neg h]
    unfold set_mode
    rw [if_neg h]
    by_cases hc : _valid_mode (some m) ≠ MODE_STOPWATCH ∧ st.stopwatch_running = true
    · rw [if_pos hc]; rfl
    · rw [if_neg hc]; rfl

lemma set_layer_layer (st : WState) (l : String) (p : Bool) :
    (set_layer st l p false).layer = _valid_layer (some l) := by
  unfold set_layer
  by_cases h : _valid_layer (some l) = st.layer
  · rw [if_pos ⟨h, rfl⟩]; exact h.symm
  · rw [if_neg (fun hc => h hc.1)]
    split_ifs <;> rfl

lemma set_layer_noop (st : WState) (l : String) (p : Bool)
    (h : _valid_layer (some l) = st.layer) : set_layer st l p false = st := by
  unfold set_layer
  rw [if_pos ⟨h, rfl⟩]

lemma set_layer_saves (st : WState) (l : String) :
    (set_layer st l true false).saves
      = if _valid_layer (some l) = st.layer then st.saves else st.saves + 1 := by
  by_cases h : _valid_layer (some l) = st.layer
  · rw [set_layer_noop st l true h, if_pos h]
  · rw [if_neg h]
    unfold set_layer
    rw [if_neg (fun hc => h hc.1)]
    rfl

lemma set_color_theme_theme (st : WState) (t : String) (p : Bool) :
    (set_color_theme st t p).color_theme = _valid_theme (some t) := by
  unfold set_color_theme
  by_cases h : _valid_theme (some t) = st.color_theme
  · rw [if_pos h]; exact h.symm
  · rw [if_neg h]
    split_ifs <;> rfl

lemma set_color_theme_noop (st : WState) (t : String) (p : Bool)
    (h : _valid_theme (some t) = st.color_theme) : set_color_theme st t p = st := by
  unfold set_color_theme
  rw [if_pos h]

lemma set_color_theme_saves (st : WState) (t : String) :
    (set_color_theme st t true).saves
      = if _valid_theme (some t) = st.color_theme then st.saves else st.saves + 1 := by
  by_cases h : _valid_theme (some t) = st.color_theme
  · rw [set_color_theme_noop st t true h, if_pos h]
  · rw [if_neg h]
    unfold set_color_theme
    rw [if_neg h]
    rfl

lemma set_readout_font_family (st : WState) (f : String) (p : Bool) :
    (set_readout_font st f p).readout_font_family = _normalize_readout_font (some f) := by
  unfold set_readout_font
  by_cases h : _normalize_readout_font (some f) = st.readout_font_family
  · rw [if_pos h]; exact h.symm
  · rw [if_neg h]
    split_ifs <;> rfl

lemma set_readout_font_noop (st : WState) (f : String) (p : Bool)
    (h : _normalize_readout_font (some f) = st.readout_font_family) :
    set_readout_font st f p = st := by
  unfold set_readout_font
  rw [if_pos h]

lemma set_readout_font_saves (st : WState) (f : String) :
    (set_readout_font st f true).saves
      = if _normalize_readout_font (some f) = st.readout_font_family then st.saves
        else st.saves + 1 := by
  by_cases h : _normalize_readout_font (some f) = st.readout_font_family
  · rw [set_readout_font_noop st f true h, if_pos h]
  · rw [if_neg h]
    unfold set_readout_font
    rw [if_neg h]
    rfl

lemma set_clock_size_noop (env : Env) (st : WState) (s : SizeInput) (p : Bool)
    (h : _valid_size s = st.clock_size) : set_clock_size env st s p = st := by
  unfold set_clock_size
  rw [if_pos h]

lemma set_clock_size_saves_onscreen (env : Env) (st : WState) (s : SizeInput)
    (h : ¬_valid_size s = st.clock_size)
    (hon : _is_on_any_screen env (resize_keeping_center st (_valid_size s)) = true) :
    (set_clock_size env st s true).saves = st.saves + 1 := by
  unfold set_clock_size
  rw [if_neg h]
  simp only [hon]
  rfl

/-! Claim theorems. -/

/-- C1: the elapsed-time read returns `accumulatedMs` when the stopwatch is
stopped and `accumulatedMs + (now - startInstant)` when it is running (given
the monotonic-clock guarantee `startInstant ≤ now`); the result is never
negative, and the read is a pure function that leaves the state untouched. -/
theorem c1_elapsed_read (st : WState) (now : Int)
    (hacc : 0 ≤ st.stopwatch_elapsed_ms)
    (hmono : st.stopwatch_running = true → st.stopwatch_start_time ≤ now) :
    (st.stopwatch_running = true →
      _current_stopwatch_ms st now = st.stopwatch_elapsed_ms + (now - st.stopwatch_start_time))
    ∧ (st.stopwatch_running = false → _current_stopwatch_ms st now = st.stopwatch_elapsed_ms)
    ∧ 0 ≤ _current_stopwatch_ms st now
    ∧ stopwatch_read st now = (_current_stopwatch_ms st now, st) := by
  rcases Bool.eq_false_or_eq_true st.stopwatch_running with h | h
  · have hs := hmono h
    have hr := current_ms_running st now h
    refine ⟨fun _ => ?_, fun hf => ?_, ?_, rfl⟩
    · rw [hr]; omega
    · rw [hf] at h; cases h
    · rw [hr]; omega
  · have hr := current_ms_stopped st now h
    refine ⟨fun ht => ?_, fun _ => hr, ?_, rfl⟩
    · rw [ht] at h; cases h
    · rw [hr]; omega

/-- C1 witness at a concrete running state and instant. -/
theorem c1_elapsed_read_witness : 0 ≤ _current_stopwatch_ms stRun 17 :=
  (c1_elapsed_read stRun 17 (by decide) (by decide)).2.2.1

/-- C2: in a reachable running state (the stopwatch only ever runs in
stopwatch mode), switching to any mode that does not normalize to Stopwatch
folds the elapsed running time into the accumulator and stops the stopwatch;
switching back to Stopwatch finds it stopped, with the elapsed reading frozen
at the switch-away value. -/
theorem c2_set_mode_folds (st : WState) (m : String) (now now2 : Int)
    (hmode : st.mode = MODE_STOPWATCH) (hrun : st.stopwatch_running = true)
    (hm : _valid_mode (some m) ≠ MODE_STOPWATCH) :
    (set_mode st m now true).stopwatch_running = false
    ∧ (set_mode st m now true).stopwatch_elapsed_ms = _current_stopwatch_ms st now
    ∧ (set_mode st m now true).mode = _valid_mode (some m)
    ∧ (set_mode (set_mode st m now true) MODE_STOPWATCH now2 true).mode = MODE_STOPWATCH
    ∧ (set_mode (set_mode st m now true) MODE_STOPWATCH now2 true).stopwatch_running = false
    ∧ (set_mode (set_mode st m now true) MODE_STOPWATCH now2 true).stopwatch_elapsed_ms
        = _current_stopwatch_ms st now
    ∧ _current_stopwatch_ms (set_mode (set_mode st m now true) MODE_STOPWATCH now2 true) now2
        = _current_stopwatch_ms st now := by
  have hne : _valid_mode (some m) ≠ st.mode := by rw [hmode]; exact hm
  have h1 : set_mode st m now true =
      save_state { st with
        stopwatch_elapsed_ms := _current_stopwatch_ms st now
        stopwatch_running := false
        mode := _valid_mode (some m) } := by
    unfold set_mode
    rw [if_neg hne,
      if_pos (show _valid_mode (some m) ≠ MODE_STOPWATCH ∧ st.stopwatch_running = true from
        ⟨hm, hrun⟩)]
    rfl
  have hA_mode : (set_mode st m now true).mode = _valid_mode (some m) := by
    rw [h1]; rfl
  have hA_run : (set_mode st m now true).stopwatch_running = false := by
    rw [h1]; rfl
  have hA_ms : (set_mode st m now true).stopwatch_elapsed_ms = _current_stopwatch_ms st now := by
    rw [h1]; rfl
  have hvm : _valid_mode (some MODE_STOPWATCH) = MODE_STOPWATCH := by decide
  have h2 : set_mode (set_mode st m now true) MODE_STOPWATCH now2 true
      = save_state { (set_mode st m now true) with mode := MODE_STOPWATCH } := by
    generalize hg : set_mode st m now true = stA at hA_mode hA_run ⊢
    unfold set_mode
    rw [hvm, if_neg (fun hEq => hm (by rw [hA_mode] at hEq; exact hEq.symm)),
      if_neg (show ¬(MODE_STOPWATCH ≠ MODE_STOPWATCH ∧ stA.stopwatch_running = true) from
        fun hc => hc.1 rfl)]
    rfl
  have hB_run : (set_mode (set_mode st m now true) MODE_STOPWATCH now2 true).stopwatch_running
      = false := by
    rw [h2]
    simpa [save_state] using hA_run
  refine ⟨hA_run, hA_ms, hA_mode, ?_, hB_run, ?_, ?_⟩
  · rw [h2]; rfl
  · rw [h2]
    simpa [save_state] using hA_ms
  · rw [current_ms_stopped _ now2 hB_run, h2]
    simpa [save_state] using hA_ms

/-- C2 witness at a concrete running stopwatch state. -/
theorem c2_set_mode_folds_witness :
    (set_mode stRun "clock" 17 true).stopwatch_elapsed_ms = _current_stopwatch_ms stRun 17 :=
  (c2_set_mode_folds stRun "clock" 17 42 rfl rfl (by decide)).2.1

/-- C3: `reset_stopwatch` zeroes the accumulator, never changes the running
flag, rebases the start instant to `now` exactly when running, and the
elapsed reading right after a reset is zero. -/
theorem c3_reset_stopwatch (st : WState) (now : Int) :
    (reset_stopwatch st now).stopwatch_elapsed_ms = 0
    ∧ (reset_stopwatch st now).stopwatch_running = st.stopwatch_running
    ∧ (reset_stopwatch st now).stopwatch_start_time
        = (if st.stopwatch_running = true then now else st.stopwatch_start_time)
    ∧ (reset_stopwatch st now).mode = st.mode
    ∧ _current_stopwatch_ms (reset_stopwatch st now) now = 0 := by
  rcases Bool.eq_false_or_eq_true st.stopwatch_running with h | h <;>
    simp [reset_stopwatch, _current_stopwatch_ms, h]

/-- C4: for a press/release pair without native-move acceptance, if no move
event exceeded the 6 px Manhattan threshold and the press-to-release
displacement is at most 6 px, the release is a click — it toggles the
stopwatch in stopwatch mode and has no effect in clock mode; if the
displacement exceeds 6 px the release is not a click and never toggles the
stopwatch. -/
theorem c4_click_vs_drag (st : WState) (p r : Point) (qs : List Point) (now : Int)
    (hthr : st.click_threshold_px = 6) :
    ((∀ q ∈ qs, (q - p).manhattanLength ≤ 6) → (r - p).manhattanLength ≤ 6 →
      ((st.mode = MODE_STOPWATCH →
        (mouseReleaseEvent (processMoves (mousePressEvent st true p false) qs) true r
            now).stopwatch_running
          = !st.stopwatch_running)
       ∧ (st.mode = MODE_CLOCK →
        (mouseReleaseEvent (processMoves (mousePressEvent st true p false) qs) true r
            now).stopwatch_running = st.stopwatch_running
        ∧ (mouseReleaseEvent (processMoves (mousePressEvent st true p false) qs) true r
            now).pos = st.pos
        ∧ (mouseReleaseEvent (processMoves (mousePressEvent st true p false) qs) true r
            now).saves = st.saves
        ∧ (mouseReleaseEvent (processMoves (mousePressEvent st true p false) qs) true r
            now).mode = st.mode)))
    ∧ ((r - p).manhattanLength > 6 →
      (mouseReleaseEvent (processMoves (mousePressEvent st true p false) qs) true r
          now).stopwatch_running
        = st.stopwatch_running) := by
  rw [press_no_native st p]
  constructor
  · intro hqs hcl
    have hmv : processMoves
        { st with drag_offset := some (p - st.pos), press_global_pos := some p,
                  drag_started := false } qs
        = { st with drag_offset := some (p - st.pos), press_global_pos := some p,
                    drag_started := false } :=
      processMoves_id p qs _ (p - st.pos) rfl rfl rfl
        (fun q hq => by
          show (q - p).manhattanLength ≤ st.click_threshold_px
          rw [hthr]
          exact hqs q hq)
    rw [hmv]
    constructor
    · intro hmode
      exact release_click_stopwatch _ r p now rfl rfl
        (by show (r - p).manhattanLength ≤ st.click_threshold_px; rw [hthr]; exact hcl)
        (by show st.mode = MODE_STOPWATCH; exact hmode)
    · intro hmode
      rw [release_click_clock _ r now p rfl rfl (by show st.mode = MODE_CLOCK; exact hmode)]
      exact ⟨rfl, rfl, rfl, rfl⟩
  · intro hfar
    obtain ⟨b1, b2, b3, b4, b5, b6, b7, b8⟩ := processMoves_preserves qs
      { st with drag_offset := some (p - st.pos), press_global_pos := some p,
                drag_started := false }
    have hp2 : (processMoves
        { st with drag_offset := some (p - st.pos), press_global_pos := some p,
                  drag_started := false } qs).press_global_pos = some p := b1.trans rfl
    have hfar2 : (processMoves
        { st with drag_offset := some (p - st.pos), press_global_pos := some p,
                  drag_started := false } qs).click_threshold_px
        < (r - p).manhattanLength := by
      rw [b7]
      show st.click_threshold_px < (r - p).manhattanLength
      rw [hthr]
      exact hfar
    rw [release_far_no_toggle _ r p now hp2 hfar2, b4]

/-- C4 witness: a small-displacement press/move/release at a concrete running
stopwatch state toggles it off. -/
theorem c4_click_vs_drag_witness :
    (mouseReleaseEvent (processMoves (mousePressEvent stRun true ⟨0, 0⟩ false) [⟨1, 1⟩])
        true ⟨2, 2⟩ 50).stopwatch_running
      = !stRun.stopwatch_running :=
  ((c4_click_vs_drag stRun ⟨0, 0⟩ ⟨2, 2⟩ [⟨1, 1⟩] 50 (by decide)).1
    (by decide) (by decide)).1 rfl

/-- C5: `_valid_size` always lands in `[120, 640]`; hence both the constructed
widget and the widget after any `set_clock_size` call satisfy the size
invariant (given that it held before the call). -/
theorem c5_size_invariant (s : SizeInput) (env : Env) (st : WState)
    (hlo : MIN_CLOCK_SIZE ≤ st.clock_size) (hhi : st.clock_size ≤ MAX_CLOCK_SIZE) :
    MIN_CLOCK_SIZE = 120 ∧ MAX_CLOCK_SIZE = 640
    ∧ (MIN_CLOCK_SIZE ≤ _valid_size s ∧ _valid_size s ≤ MAX_CLOCK_SIZE)
    ∧ (∀ (ss : Bool) (la mo th fo : String) (p0 : Point),
        MIN_CLOCK_SIZE ≤ (initWidget s ss la mo th fo p0).clock_size
        ∧ (initWidget s ss la mo th fo p0).clock_size ≤ MAX_CLOCK_SIZE)
    ∧ (MIN_CLOCK_SIZE ≤ (set_clock_size env st s true).clock_size
       ∧ (set_clock_size env st s true).clock_size ≤ MAX_CLOCK_SIZE) := by
  refine ⟨rfl, rfl, valid_size_bounds s, ?_, ?_⟩
  · intro ss la mo th fo p0
    have h := valid_size_bounds s
    simpa [initWidget] using h
  · rw [set_clock_size_clock_size]
    split_ifs with h
    · exact ⟨hlo, hhi⟩
    · exact valid_size_bounds s

/-- C5 witness: an out-of-range size gets clamped at a concrete state. -/
theorem c5_size_invariant_witness :
    MIN_CLOCK_SIZE ≤ (set_clock_size envW st0 (SizeInput.int 5000) true).clock_size
    ∧ (set_clock_size envW st0 (SizeInput.int 5000) true).clock_size ≤ MAX_CLOCK_SIZE :=
  (c5_size_invariant (SizeInput.int 5000) envW st0 (by decide) (by decide)).2.2.2.2

/-- C6 counterexample: calling `set_color_theme` twice in a row with the theme
the widget already has triggers zero persistence writes, not exactly one, so
the claim fails for inputs whose normalized value already equals the current
value. -/
theorem c6_counterexample :
    (set_color_theme (set_color_theme st0 "midnight" true) "midnight" true).saves = st0.saves
    ∧ (set_color_theme (set_color_theme st0 "midnight" true) "midnight" true).saves
        ≠ st0.saves + 1
    ∧ st0.color_theme = "midnight" := by
  decide

/-- C6 amended: for every mutator the second consecutive call with the same
value is a complete no-op (it returns the state unchanged, writing nothing),
so the pair of calls performs exactly the first call's writes: zero writes
when the normalized value already equals the current value, and exactly one
write when it differs (for `set_clock_size`, exactly one provided the resized
frame stays on a known display). -/
theorem c6_mutator_idempotence (st : WState) (env : Env) (m l t f : String)
    (s : SizeInput) (now : Int) :
    set_mode (set_mode st m now true) m now true = set_mode st m now true
    ∧ set_layer (set_layer st l true false) l true false = set_layer st l true false
    ∧ set_color_theme (set_color_theme st t true) t true = set_color_theme st t true
    ∧ set_readout_font (set_readout_font st f true) f true = set_readout_font st f true
    ∧ set_clock_size env (set_clock_size env st s true) s true = set_clock_size env st s true
    ∧ (set_mode st m now true).saves
        = (if _valid_mode (some m) = st.mode then st.saves else st.saves + 1)
    ∧ (set_layer st l true false).saves
        = (if _valid_layer (some l) = st.layer then st.saves else st.saves + 1)
    ∧ (set_color_theme st t true).saves
        = (if _valid_theme (some t) = st.color_theme then st.saves else st.saves + 1)
    ∧ (set_readout_font st f true).saves
        = (if _normalize_readout_font (some f) = st.readout_font_family then st.saves
           else st.saves + 1)
    ∧ (_valid_size s = st.clock_size → (set_clock_size env st s true).saves = st.saves)
    ∧ (¬_valid_size s = st.clock_size →
        _is_on_any_screen env (resize_keeping_center st (_valid_size s)) = true →
        (set_clock_size env st s true).saves = st.saves + 1) := by
  refine ⟨set_mode_noop _ m now true (set_mode_mode st m now true).symm,
    set_layer_noop _ l true (set_layer_layer st l true).symm,
    set_color_theme_noop _ t true (set_color_theme_theme st t true).symm,
    set_readout_font_noop _ f true (set_readout_font_family st f true).symm,
    set_clock_size_noop env _ s true ?_,
    set_mode_saves st m now, set_layer_saves st l, set_color_theme_saves st t,
    set_readout_font_saves st f,
    fun h => by rw [set_clock_size_noop env st s true h],
    set_clock_size_saves_onscreen env st s⟩
  rw [set_clock_size_clock_size]
  split_ifs with h2
  · exact h2
  · rfl

/-- C6 witness: a value-changing `set_clock_size` that stays on-screen writes
exactly once. -/
theorem c6_mutator_idempotence_witness :
    (set_clock_size envW st0 (SizeInput.int 300) true).saves = st0.saves + 1 :=
  (c6_mutator_idempotence st0 envW "clock" "top" "midnight" "Monospace"
      (SizeInput.int 300) 0).2.2.2.2.2.2.2.2.2.2 (by decide) (by decide)

/-- C7: the elapsed-time formatter decomposes the millisecond count by
truncation (integer division and modulo, so that the components exactly
recompose the input, never rounding up), renders `HH:MM:SS.mmm` when the
whole-hour component is positive and `MM:SS.mmm` otherwise, and every
component is zero-padded to its field width. -/
theorem c7_format_elapsed (ms : Nat) :
    ms = 3600000 * (ms / 3600000) + 60000 * ((ms / 60000) % 60)
          + 1000 * ((ms / 1000) % 60) + ms % 1000
    ∧ (ms / 60000) % 60 < 60 ∧ (ms / 1000) % 60 < 60 ∧ ms % 1000 < 1000
    ∧ _format_stopwatch_elapsed ms =
        (if ms / 3600000 > 0 then
          padNum 2 (ms / 3600000) ++ ":" ++ padNum 2 ((ms / 60000) % 60) ++ ":"
            ++ padNum 2 ((ms / 1000) % 60) ++ "." ++ padNum 3 (ms % 1000)
         else
          padNum 2 ((ms / 60000) % 60) ++ ":" ++ padNum 2 ((ms / 1000) % 60)
            ++ "." ++ padNum 3 (ms % 1000))
    ∧ (padNum 2 ((ms / 60000) % 60)).length = 2
    ∧ (padNum 2 ((ms / 1000) % 60)).length = 2
    ∧ (padNum 3 (ms % 1000)).length = 3
    ∧ 2 ≤ (padNum 2 (ms / 3600000)).length := by
  refine ⟨by omega, by omega, by omega, by omega, rfl, ?_, ?_, ?_, padNum_min_len 2 _⟩
  · exact padNum_two_len _ (Nat.mod_lt _ (by decide))
  · exact padNum_two_len _ (Nat.mod_lt _ (by decide))
  · exact padNum_three_len _ (Nat.mod_lt _ (by decide))

/-- C8: on any read/parse failure the loader returns the empty record, which
launches with every field at its default; each launched field is the
mutators' own normalizer applied to that raw field alone, so a record whose
size field alone is corrupted launches with the default size and every other
(valid) field intact. -/
theorem c8_load_validation (r : RawRecord)
    (hmode : r.mode = some MODE_CLOCK ∨ r.mode = some MODE_STOPWATCH)
    (hlayer : r.layer = some LAYER_TOP ∨ r.layer = some LAYER_NORMAL
      ∨ r.layer = some LAYER_BOTTOM)
    (htheme : ∃ t, r.theme = some t ∧ t ∈ THEME_KEYS)
    (hfont : ∃ f, r.readout_font = some f ∧ pyStrip f = f ∧ f ≠ "")
    (hsize : pyParseInt r.size = Option.none) :
    load_saved_state LoadOutcome.failure = emptyRecord
    ∧ load_saved_state LoadOutcome.nonDict = emptyRecord
    ∧ launchConfig Option.none Option.none Option.none Option.none Option.none emptyRecord
        = ⟨DEFAULT_CLOCK_SIZE, DEFAULT_MODE, DEFAULT_LAYER, DEFAULT_THEME, DEFAULT_READOUT_FONT⟩
    ∧ (∀ r2 : RawRecord,
        launchConfig Option.none Option.none Option.none Option.none Option.none r2
          = ⟨_valid_size r2.size, _valid_mode r2.mode, _valid_layer r2.layer,
             _valid_theme r2.theme, _normalize_readout_font r2.readout_font⟩)
    ∧ (launchConfig Option.none Option.none Option.none Option.none Option.none r).size
        = DEFAULT_CLOCK_SIZE
    ∧ some (launchConfig Option.none Option.none Option.none Option.none Option.none r).mode
        = r.mode
    ∧ some (launchConfig Option.none Option.none Option.none Option.none Option.none r).layer
        = r.layer
    ∧ some (launchConfig Option.none Option.none Option.none Option.none Option.none r).theme
        = r.theme
    ∧ some (launchConfig Option.none Option.none Option.none Option.none Option.none
        r).readout_font = r.readout_font := by
  refine ⟨rfl, rfl, by decide, fun r2 => rfl, ?_, ?_, ?_, ?_, ?_⟩
  · show _valid_size r.size = DEFAULT_CLOCK_SIZE
    show max MIN_CLOCK_SIZE (min MAX_CLOCK_SIZE ((pyParseInt r.size).getD DEFAULT_CLOCK_SIZE))
        = DEFAULT_CLOCK_SIZE
    rw [hsize]
    decide
  · show some (_valid_mode r.mode) = r.mode
    rcases hmode with h | h <;> rw [h] <;> decide
  · show some (_valid_layer r.layer) = r.layer
    rcases hlayer with h | h | h <;> rw [h] <;> decide
  · show some (_valid_theme r.theme) = r.theme
    obtain ⟨t, ht, hmem⟩ := htheme
    rw [ht]
    simp [_valid_theme, hmem]
  · show some (_normalize_readout_font r.readout_font) = r.readout_font
    obtain ⟨f, hf, hstrip, hne⟩ := hfont
    rw [hf]
    simp [_normalize_readout_font, hstrip, hne]

/-- Record with a corrupted size field and valid remaining fields. -/
def r8 : RawRecord :=
  ⟨SizeInput.str "not a number", some "stopwatch", some "bottom", some "ocean", some "Fira Code"⟩

/-- C8 witness: the corrupted size field alone falls back to the default. -/
theorem c8_load_validation_witness :
    (launchConfig Option.none Option.none Option.none Option.none Option.none r8).size
      = DEFAULT_CLOCK_SIZE :=
  (c8_load_validation r8 (Or.inr rfl) (Or.inr (Or.inr rfl)) ⟨"ocean", rfl, by decide⟩
    ⟨"Fira Code", rfl, by decide, by decide⟩ (by decide)).2.2.2.2.1

/-- C9 counterexample: with two displays and the cursor on the secondary one,
an off-screen loaded position re-centers on the cursor's (secondary) display,
not on the primary display as the claim states. -/
theorem c9_counterexample :
    _is_on_any_screen env9 { st0 with pos := (⟨5000, 5000⟩ : Point) } = false
    ∧ (restore_position env9 st0 Option.none Option.none (some ⟨5000, 5000⟩)).pos
        = (⟨1390, 390⟩ : Point)
    ∧ env9.screens.head? = some ⟨0, 0, 1000, 1000⟩
    ∧ ((⟨1390, 390⟩ : Point)
        ≠ ⟨0 + Int.fdiv (1000 - widgetWidth st0) 2, 0 + Int.fdiv (1000 - widgetHeight st0) 2⟩) := by
  decide

/-- C9 amended: the validity check is true exactly when the frame center is in
some display region, and an off-screen loaded position re-centers on the
current screen — the window's own screen, else the display under the frame
center, else the display under the cursor, else the primary display (so the
primary only when the earlier lookups all miss). -/
theorem c9_position_validity (env : Env) (st : WState) (p : Point)
    (hoff : _is_on_any_screen env { st with pos := p } = false) :
    (∀ st2 : WState, _is_on_any_screen env st2 = true
        ↔ ∃ g ∈ env.screens, g.contains (Rect.center (frameGeom st2)) = true)
    ∧ restore_position env st Option.none Option.none (some p)
        = center_on_screen env { st with pos := p }
    ∧ (env.handleScreen = Option.none →
        env.screens.find? (fun g => g.contains env.cursor) = Option.none →
        _current_screen env { st with pos := p } = env.screens.head?) := by
  refine ⟨?_, ?_, ?_⟩
  · intro st2
    simp [_is_on_any_screen, List.any_eq_true]
  · simp [restore_position, hoff]
  · intro hh hcur
    have h2 : ∀ g ∈ env.screens,
        ¬(g.contains (Rect.center (frameGeom { st with pos := p })) = true) := by
      simpa [_is_on_any_screen, List.any_eq_false] using hoff
    have hfind : env.screens.find?
        (fun g => g.contains (Rect.center (frameGeom { st with pos := p }))) = Option.none :=
      List.find?_eq_none.mpr h2
    unfold _current_screen
    rw [hh, hfind, hcur]

/-- C9 witness: the amended re-centering equality at the concrete two-display
environment. -/
theorem c9_position_validity_witness :
    restore_position env9 st0 Option.none Option.none (some ⟨5000, 5000⟩)
      = center_on_screen env9 { st0 with pos := (⟨5000, 5000⟩ : Point) } :=
  (c9_position_validity env9 st0 ⟨5000, 5000⟩ (by decide)).2.1

/-- C10: an unparseable size input (Python `None`, or a string `int()`
rejects) yields exactly the default 220, which is strictly inside the
clamping range rather than one of its boundaries. -/
theorem c10_unparseable_size_default (s : String) (hs : pyStrToInt s = Option.none) :
    _valid_size SizeInput.none = DEFAULT_CLOCK_SIZE
    ∧ _valid_size (SizeInput.str s) = DEFAULT_CLOCK_SIZE
    ∧ DEFAULT_CLOCK_SIZE = 220
    ∧ MIN_CLOCK_SIZE < DEFAULT_CLOCK_SIZE ∧ DEFAULT_CLOCK_SIZE < MAX_CLOCK_SIZE := by
  refine ⟨by decide, ?_, rfl, by decide, by decide⟩
  show max MIN_CLOCK_SIZE (min MAX_CLOCK_SIZE ((pyStrToInt s).getD DEFAULT_CLOCK_SIZE))
      = DEFAULT_CLOCK_SIZE
  rw [hs]
  decide

/-- C10 witness at a concrete non-numeric string. -/
theorem c10_unparseable_size_default_witness :
    _valid_size (SizeInput.str "abc") = DEFAULT_CLOCK_SIZE :=
  (c10_unparseable_size_default "abc" (by decide)).2.1

end DTClock
